import Mathlib

/-!
Verification development for the MultiTankcard (MTC) reimbursement client
(`src/MTC.py`).  The client logic is shallowly embedded:

* Python `datetime` values are modelled as `Int` microsecond timestamps
  (aware-`datetime` arithmetic with `timedelta` is exact arithmetic on the
  underlying instant; `timedelta(days=1)` is exactly 86 400 seconds).
  The textual `isoformat` rendering that only appears inside log/result
  messages is modelled by `toString` on the timestamp.
* Numeric claim fields (`kwh_charged`, `total_price`) only ever appear as
  their textual rendering inside f-strings and payloads, so they are
  modelled by that rendering (a `String`).
* HTTP traffic is modelled by oracles: the environment maps each loop
  iteration to the server's answer for the transactions fetch and for the
  claim write.  The observable requests are collected in an event trace.
* The standard-library call `datetime.fromisoformat` is modelled by an
  environment-supplied partial parse function `parseISO`; the client's
  behaviour depends only on whether it succeeds and on the parsed instant.
-/

/-- Bootstrap anti-forgery token hardcoded in `MTCClient.__init__`
(`self.csrf_token = "T6C+9iB49TLra4jEsMeSckDMNhQ="`). -/
def bootstrapCsrfToken : String := "T6C+9iB49TLra4jEsMeSckDMNhQ="

/-- Python `timedelta(days=1)` on an aware datetime, in microseconds. -/
def oneDay : Int := 86400000000

/-- The fields of `claim_data` read by `MTCClient.submit_reimbursement`. -/
structure ClaimData where
  datetime : String
  location : String
  kwh_charged : String
  total_price : String
  chargeSessionId : String
  invoice_jpeg_base64 : String
deriving DecidableEq

/-- One element of the fetched transaction list; `submit_reimbursement`
only reads `transaction.get("ClaimNote")`, which is absent (`None`) or a
string. -/
structure TransactionRec where
  claimNote : Option String
deriving DecidableEq

/-- Outcome of the `DataActionGetTransactions` POST, as the code
discriminates it: non-2xx status, a JSON body with an `"exception"` key,
or a transaction list. -/
inductive FetchResult where
  | httpError (status : Nat)
  | apiException (msg : String)
  | ok (txs : List TransactionRec)
deriving DecidableEq

/-- Outcome of the `ActionClaim_Create` POST, as the code discriminates
it: non-2xx status, an `"error"`/`"exception"` key, `data.Success`
truthy, or a rejection carrying `data.ErrorMessage`. -/
inductive SubmitResult where
  | httpError (status : Nat)
  | apiError (msg : String)
  | success
  | failure (errorMessage : String)
deriving DecidableEq

/-- Observable side effects of one `submit_reimbursement` call:
`login()` invocations, transaction-list fetches, and claim writes (the
write records the `DateTransaction` instant it submits). -/
inductive Event where
  | loginCall
  | fetchTx
  | claimWrite (dateTransaction : Int)
deriving DecidableEq

/-- The part of the session state `submit_reimbursement` inspects before
each attempt: presence of the `osVisitor` cookie and the current
`csrf_token` string (Python truthiness of a string is nonemptiness). -/
structure SessState where
  osVisitor : Bool
  csrf_token : String
deriving DecidableEq

/-- Environment for a `submit_reimbursement` run: the parse oracle for
`datetime.fromisoformat`, the result of (re-)running `login()` and the
session state it leaves behind on success, the `MODE == "DRY"` flag, and
the server's per-iteration answers. -/
structure SubmitEnv where
  parseISO : String → Option Int
  loginOk : Bool
  postLoginSess : SessState
  dryMode : Bool
  fetch : Nat → FetchResult
  submitResp : Nat → SubmitResult

/-- Whether `needle` occurs as a contiguous substring, mirroring Python's
`phrase in error_message`. -/
def occursIn (needle : List Char) : List Char → Bool
  | [] => needle.isEmpty
  | c :: rest => needle.isPrefixOf (c :: rest) || occursIn needle rest

/-- String-level wrapper for `occursIn`. -/
def containsSubstring (hay needle : String) : Bool :=
  occursIn needle.toList hay.toList

/-- `MTCClient._is_daily_limit_error`: the error text contains the known
daily-limit phrase. -/
def is_daily_limit_error (error_message : String) : Bool :=
  containsSubstring error_message "maximaal 3 transacties op een dag"

/-- Message built for a detected duplicate. -/
def dupMsg (c : ClaimData) : String :=
  "Skipping duplicate claim for session " ++ c.chargeSessionId ++ " (at " ++
    c.location ++ " (" ++ c.kwh_charged ++ " kWh, €" ++ c.total_price ++ ")"

/-- Message built on the dry-run short-circuit. -/
def dryRunMsg (c : ClaimData) : String :=
  "[DRY RUN] Would submit claim for " ++ c.location ++ " (" ++
    c.kwh_charged ++ " kWh, €" ++ c.total_price ++ ")"

/-- Message built on a successful submission; `dt` is the instant whose
isoformat rendering the code interpolates. -/
def successMsg (c : ClaimData) (dt : Int) : String :=
  "Successfully submitted claim for " ++ c.location ++ " (" ++
    c.kwh_charged ++ " kWh, €" ++ c.total_price ++
    ") with transaction date " ++ toString dt

/-- The `while attempt < max_attempts` loop of
`MTCClient.submit_reimbursement`.  `attempt` is the Python loop counter;
the fuel argument equals `maxAttempts - attempt` along every reachable
call.  Returns the `(success, message)` pair together with the trace of
requests issued from this iteration onward. -/
def go (env : SubmitEnv) (claim : ClaimData) (maxAttempts : Nat) :
    Nat → Nat → Int → SessState → (Bool × String) × List Event
  | _, 0, _, _ =>
      ((false, "Failed to submit after " ++ toString maxAttempts ++ " date attempts"), [])
  | attempt, r + 1, dt, sess =>
      let needLogin : Bool := !sess.osVisitor || sess.csrf_token == ""
      if needLogin && !env.loginOk then
        ((false, "Authentication required and re-login failed"), [Event.loginCall])
      else
        let sess1 := if needLogin then env.postLoginSess else sess
        let preEvents : List Event := if needLogin then [Event.loginCall] else []
        let result : (Bool × String) × List Event :=
          match env.fetch attempt with
          | FetchResult.httpError s =>
              if s = 401 ∨ s = 403 then
                if env.loginOk then
                  ((false, "Failed to fetch transactions: HTTP " ++ toString s),
                    [Event.fetchTx, Event.loginCall])
                else
                  ((false, "Re-login failed after transaction fetch error."),
                    [Event.fetchTx, Event.loginCall])
              else
                ((false, "Failed to fetch transactions: HTTP " ++ toString s),
                  [Event.fetchTx])
          | FetchResult.apiException m =>
              ((false, "API error in transactions: " ++ m), [Event.fetchTx])
          | FetchResult.ok txs =>
              if txs.any (fun t => t.claimNote == some claim.chargeSessionId) then
                ((true, dupMsg claim), [Event.fetchTx])
              else if env.dryMode then
                ((true, dryRunMsg claim), [Event.fetchTx])
              else
                match env.submitResp attempt with
                | SubmitResult.httpError s =>
                    ((false, "HTTP error submitting claim: " ++ toString s),
                      [Event.fetchTx, Event.claimWrite dt])
                | SubmitResult.apiError m =>
                    ((false, "API error: " ++ m), [Event.fetchTx, Event.claimWrite dt])
                | SubmitResult.success =>
                    ((true, successMsg claim dt), [Event.fetchTx, Event.claimWrite dt])
                | SubmitResult.failure em =>
                    if is_daily_limit_error em then
                      if attempt + 1 < maxAttempts then
                        let sub := go env claim maxAttempts (attempt + 1) r (dt - oneDay) sess1
                        (sub.1, [Event.fetchTx, Event.claimWrite dt] ++ sub.2)
                      else
                        ((false, "Failed due to daily limit after " ++ toString (attempt + 1) ++
                          " attempts: " ++ em), [Event.fetchTx, Event.claimWrite dt])
                    else
                      ((false, "Failed to submit claim: " ++ em),
                        [Event.fetchTx, Event.claimWrite dt])
        (result.1, preEvents ++ result.2)

/-- `MTCClient.submit_reimbursement`: parse the claim's datetime (failing
fast if it is not valid ISO-8601), then run the attempt loop. -/
def submit_reimbursement (env : SubmitEnv) (claim : ClaimData) (maxAttempts : Nat)
    (sess : SessState) : (Bool × String) × List Event :=
  match env.parseISO claim.datetime with
  | none => ((false, "Invalid datetime format: " ++ claim.datetime), [])
  | some d => go env claim maxAttempts 0 maxAttempts d sess

/-- The module-level `API_PATTERNS` table of `src/MTC.py`.  Each regex
there is a literal string followed by the capture `([^"]+)` and a closing
quote; the entry stores (endpoint key, the literal part, the JS file). -/
def API_PATTERNS : List (String × String × String) :=
  [ ("appstoreurls",
     "GetAppStoreUrls\", \"screenservices/OnTheMoveMultiTankcard_CW/ActionGetAppStoreUrls\", \"",
     "OnTheMoveMultiTankcard_CW.controller.js"),
    ("login",
     "AppLogin\", \"screenservices/OtmAcc_Account/ActionAppLogin\", \"",
     "OtmAcc_Account.controller.js"),
    ("transactions",
     "DataActionGetTransactions\", \"screenservices/OtmTrx_Transactions/Screen/Overview/DataActionGetTransactions\", \"",
     "OtmTrx_Transactions.Screen.Overview.mvc.js"),
    ("submit",
     "Claim_Create\", \"screenservices/OtmTrx_Transactions/Claim/ClaimForm/ActionClaim_Create\", \"",
     "OtmTrx_Transactions.Claim.ClaimForm.mvc.js") ]

/-- Match the version pattern at the head of `s`: the literal `lit`, then
a nonempty run of non-quote characters (the greedy capture), then a
quote.  Returns the capture. -/
def matchVersionAt (lit s : List Char) : Option (List Char) :=
  if lit.isPrefixOf s then
    let rest := s.drop lit.length
    let cap := rest.takeWhile (fun c => c != '"')
    match rest.drop cap.length with
    | '"' :: _ => if cap.isEmpty then none else some cap
    | _ => none
  else none

/-- `re.search` of the version pattern over the fetched script body:
leftmost position where the whole pattern matches (none of the literal
parts contain regex metacharacters). -/
def searchVersion (lit : String) : List Char → Option String
  | [] => none
  | c :: rest =>
      match matchVersionAt lit.toList (c :: rest) with
      | some cap => some (String.mk cap)
      | none => searchVersion lit rest

/-- Failure modes of `MTCClient._get_api_version`: unknown endpoint key
(a `KeyError` on `API_PATTERNS[endpoint]`), a failed script fetch
(`ValueError` "Could not fetch API version source"), or a pattern that
does not match the fetched body (`ValueError` "Could not find API
version" — the spec's `ProtocolMismatchError`). -/
inductive ApiVersionError where
  | unknownEndpoint (endpoint : String)
  | fetchFailure (endpoint : String) (jsFile : String)
  | patternMismatch (endpoint : String)
deriving DecidableEq

/-- Environment for version resolution: the body the server returns for
each script path, `none` modelling a `RequestException`/non-2xx. -/
structure VersionEnv where
  fetchBody : String → Option String

/-- `MTCClient._get_api_version`, with the `self._api_versions` dict
modelled as an association list.  Returns the result, the updated cache,
and the list of script files fetched during the call. -/
def get_api_version (env : VersionEnv) (cache : List (String × String)) (endpoint : String) :
    Except ApiVersionError String × List (String × String) × List String :=
  match cache.lookup endpoint with
  | some v => (Except.ok v, cache, [])
  | none =>
      match API_PATTERNS.lookup endpoint with
      | none => (Except.error (ApiVersionError.unknownEndpoint endpoint), cache, [])
      | some (lit, jsFile) =>
          match env.fetchBody jsFile with
          | none => (Except.error (ApiVersionError.fetchFailure endpoint jsFile), cache, [jsFile])
          | some body =>
              match searchVersion lit body.toList with
              | none => (Except.error (ApiVersionError.patternMismatch endpoint), cache, [jsFile])
              | some v => (Except.ok v, (endpoint, v) :: cache, [jsFile])

/-- Drop everything up to and including the first occurrence of `needle`;
`none` when `needle` does not occur. -/
def dropThroughFirst (needle : List Char) : List Char → Option (List Char)
  | [] => if needle.isEmpty then some [] else none
  | c :: rest =>
      if needle.isPrefixOf (c :: rest) then some ((c :: rest).drop needle.length)
      else dropThroughFirst needle rest

/-- Take characters up to (excluding) the first occurrence of `stop`. -/
def takeUntilFirst (stop : List Char) : List Char → List Char
  | [] => []
  | c :: rest => if stop.isPrefixOf (c :: rest) then [] else c :: takeUntilFirst stop rest

/-- The capture of `re.search(r"crf%3d(.*?)(?:%3b|$)", cookie)` used by
`MTCClient.login`: the text after the first `crf%3d`, up to the first
following `%3b` if any, otherwise up to the end; `none` exactly when
`crf%3d` does not occur in the cookie. -/
def extractCrfCapture (cookie : String) : Option String :=
  match dropThroughFirst ("crf%3d".toList) cookie.toList with
  | none => none
  | some tail => some (String.mk (takeUntilFirst ("%3b".toList) tail))

/-- Value of one hexadecimal digit, as `urllib.parse.unquote` accepts
(either case); `none` for a non-hex character. -/
def hexDigitVal (c : Char) : Option Nat :=
  if '0' ≤ c ∧ c ≤ '9' then some (c.toNat - '0'.toNat)
  else if 'a' ≤ c ∧ c ≤ 'f' then some (c.toNat - 'a'.toNat + 10)
  else if 'A' ≤ c ∧ c ≤ 'F' then some (c.toNat - 'A'.toNat + 10)
  else none

/-- Percent-decoding as `urllib.parse.unquote` performs it on the ASCII
tokens at hand: `%` followed by two hex digits decodes to that byte, any
other `%` is kept literally. -/
def percentDecode : List Char → List Char
  | [] => []
  | '%' :: a :: b :: rest =>
      match hexDigitVal a, hexDigitVal b with
      | some hi, some lo => Char.ofNat (16 * hi + lo) :: percentDecode rest
      | _, _ => '%' :: percentDecode (a :: b :: rest)
  | c :: rest => c :: percentDecode rest

/-- String-level `urllib.parse.unquote`. -/
def url_unquote (s : String) : String :=
  String.mk (percentDecode s.toList)

/-- Environment for one `MTCClient.login` call: whether
`_perform_initial_calls` (and the login POST itself) completed without an
exception, whether the login response JSON carries an `"exception"` key,
whether `data.Result` is `True`, and the `nr2Users` cookie present after
the login POST (if any). -/
structure LoginEnv where
  initialCallsOk : Bool
  hasException : Bool
  resultTrue : Bool
  nr2Users : Option String

/-- The client state `login` can mutate: `self.csrf_token` and the
session's default `X-CSRFToken` header (set only on success). -/
structure LoginState where
  csrf_token : String
  headerToken : Option String
deriving DecidableEq

/-- `MTCClient.login`: fail (leaving the state untouched) when the
initial calls raise, when the server reports an unsuccessful result, when
the `nr2Users` cookie is missing, or when the `crf%3d` sub-pattern does
not match it; otherwise store the URL-decoded capture as the new
`csrf_token`, install it as the default header, and succeed. -/
def login (env : LoginEnv) (st : LoginState) : Bool × LoginState :=
  if env.initialCallsOk = false then (false, st)
  else if env.hasException ∨ env.resultTrue = false then (false, st)
  else
    match env.nr2Users with
    | none => (false, st)
    | some cookie =>
        match extractCrfCapture cookie with
        | none => (false, st)
        | some enc =>
            let tok := url_unquote enc
            (true, ⟨tok, some tok⟩)

/-- Claim C10: when the claim record carries a `datetime` string the ISO
parse rejects, `submit_reimbursement` fails immediately with a message
naming the invalid value, issuing no request at all (empty trace: no
network call, no login, no state mutation). -/
theorem submit_invalid_datetime (env : SubmitEnv) (claim : ClaimData)
    (maxAttempts : Nat) (sess : SessState)
    (hparse : env.parseISO claim.datetime = none) :
    submit_reimbursement env claim maxAttempts sess =
      ((false, "Invalid datetime format: " ++ claim.datetime), []) := by
  unfold submit_reimbursement
  rw [hparse]

/-- Witness for C10 at a concrete unparseable datetime. -/
theorem submit_invalid_datetime_witness :
    submit_reimbursement
      ⟨fun _ => none, false, ⟨true, "t"⟩, false,
        fun _ => FetchResult.ok [], fun _ => SubmitResult.success⟩
      ⟨"not-a-date", "Loc", "12.3", "5.0", "abc123", "img"⟩ 3 ⟨true, "tok"⟩ =
      ((false, "Invalid datetime format: " ++ "not-a-date"), []) :=
  submit_invalid_datetime _ _ _ _ rfl

/-- Claim C1: when some fetched transaction's `ClaimNote` equals the
claim's `chargeSessionId`, `submit_reimbursement` returns success with
the duplicate-skip message and the only request issued is the
transaction fetch — no claim write. -/
theorem submit_duplicate_skip (env : SubmitEnv) (claim : ClaimData)
    (maxAttempts : Nat) (d : Int) (sess : SessState) (txs : List TransactionRec)
    (hparse : env.parseISO claim.datetime = some d)
    (hcookie : sess.osVisitor = true) (htok : sess.csrf_token ≠ "")
    (hmax : 0 < maxAttempts)
    (hfetch : env.fetch 0 = FetchResult.ok txs)
    (hdup : ∃ t ∈ txs, t.claimNote = some claim.chargeSessionId) :
    submit_reimbursement env claim maxAttempts sess =
      ((true, dupMsg claim), [Event.fetchTx]) := by
  obtain ⟨r, hr⟩ : ∃ r, maxAttempts = r + 1 := ⟨maxAttempts - 1, by omega⟩
  have hany : txs.any (fun t => t.claimNote == some claim.chargeSessionId) = true := by
    obtain ⟨t, ht, hnote⟩ := hdup
    exact List.any_eq_true.mpr ⟨t, ht, by simp [hnote]⟩
  have htokb : (sess.csrf_token == "") = false := beq_eq_false_iff_ne.mpr htok
  unfold submit_reimbursement
  rw [hparse, hr]
  unfold go
  simp [hcookie, htokb, hfetch, hany]

/-- Witness for C1 at a concrete duplicate transaction. -/
theorem submit_duplicate_skip_witness :
    submit_reimbursement
      ⟨fun _ => some 0, false, ⟨true, "t"⟩, false,
        fun _ => FetchResult.ok [⟨some "abc123"⟩], fun _ => SubmitResult.success⟩
      ⟨"2024-03-10T09:00:00+01:00", "Loc", "12.3", "5.0", "abc123", "img"⟩ 3 ⟨true, "tok"⟩ =
      ((true, dupMsg ⟨"2024-03-10T09:00:00+01:00", "Loc", "12.3", "5.0", "abc123", "img"⟩),
        [Event.fetchTx]) :=
  submit_duplicate_skip _ _ _ 0 _ _ rfl rfl (by decide) (by decide) rfl
    ⟨⟨some "abc123"⟩, by decide, rfl⟩

/-- Claim C2: with `max_attempts = 3`, a daily-limit rejection on the
first two attempts and success on the third, the claim write of the third
attempt carries the original instant minus exactly two days, one day per
daily-limit retry. -/
theorem submit_daily_limit_two_shifts (env : SubmitEnv) (claim : ClaimData)
    (d : Int) (sess : SessState) (t0 t1 t2 : List TransactionRec) (m0 m1 : String)
    (hparse : env.parseISO claim.datetime = some d)
    (hcookie : sess.osVisitor = true) (htok : sess.csrf_token ≠ "")
    (hdry : env.dryMode = false)
    (hf0 : env.fetch 0 = FetchResult.ok t0)
    (hf1 : env.fetch 1 = FetchResult.ok t1)
    (hf2 : env.fetch 2 = FetchResult.ok t2)
    (hnd0 : t0.any (fun t => t.claimNote == some claim.chargeSessionId) = false)
    (hnd1 : t1.any (fun t => t.claimNote == some claim.chargeSessionId) = false)
    (hnd2 : t2.any (fun t => t.claimNote == some claim.chargeSessionId) = false)
    (hs0 : env.submitResp 0 = SubmitResult.failure m0)
    (hdl0 : is_daily_limit_error m0 = true)
    (hs1 : env.submitResp 1 = SubmitResult.failure m1)
    (hdl1 : is_daily_limit_error m1 = true)
    (hs2 : env.submitResp 2 = SubmitResult.success) :
    submit_reimbursement env claim 3 sess =
      ((true, successMsg claim (d - 2 * oneDay)),
        [Event.fetchTx, Event.claimWrite d,
         Event.fetchTx, Event.claimWrite (d - oneDay),
         Event.fetchTx, Event.claimWrite (d - 2 * oneDay)]) := by
  have h2 : d - 2 * oneDay = d - oneDay - oneDay := by ring
  rw [h2]
  unfold submit_reimbursement
  rw [hparse]
  unfold go
  simp [go, hcookie, htok, hf0, hf1, hf2, hnd0, hnd1, hnd2, hs0, hs1, hs2, hdl0, hdl1, hdry]

/-- Witness for C2 at a concrete claim and server behaviour. -/
theorem submit_daily_limit_two_shifts_witness :
    submit_reimbursement
      ⟨fun _ => some 0, false, ⟨true, "t"⟩, false, fun _ => FetchResult.ok [],
        fun i => if i < 2 then SubmitResult.failure "maximaal 3 transacties op een dag"
          else SubmitResult.success⟩
      ⟨"2024-03-10T09:00:00+01:00", "Loc", "12.3", "5.0", "abc123", "img"⟩ 3 ⟨true, "tok"⟩ =
      ((true, successMsg ⟨"2024-03-10T09:00:00+01:00", "Loc", "12.3", "5.0", "abc123", "img"⟩
          (0 - 2 * oneDay)),
        [Event.fetchTx, Event.claimWrite 0,
         Event.fetchTx, Event.claimWrite (0 - oneDay),
         Event.fetchTx, Event.claimWrite (0 - 2 * oneDay)]) :=
  submit_daily_limit_two_shifts _ _ 0 _ [] [] []
    "maximaal 3 transacties op een dag" "maximaal 3 transacties op een dag"
    rfl rfl (by decide) rfl rfl rfl rfl rfl rfl rfl rfl (by decide) rfl (by decide) rfl

/-- Claim C3: with `max_attempts = 2` and a daily-limit rejection on
every attempt, `submit_reimbursement` fails citing the daily-limit error,
and exactly two writes are issued — the second with the date shifted back
exactly one day (the date was decremented exactly once). -/
theorem submit_daily_limit_exhausted (env : SubmitEnv) (claim : ClaimData)
    (d : Int) (sess : SessState) (t0 t1 : List TransactionRec) (m0 m1 : String)
    (hparse : env.parseISO claim.datetime = some d)
    (hcookie : sess.osVisitor = true) (htok : sess.csrf_token ≠ "")
    (hdry : env.dryMode = false)
    (hf0 : env.fetch 0 = FetchResult.ok t0)
    (hf1 : env.fetch 1 = FetchResult.ok t1)
    (hnd0 : t0.any (fun t => t.claimNote == some claim.chargeSessionId) = false)
    (hnd1 : t1.any (fun t => t.claimNote == some claim.chargeSessionId) = false)
    (hs0 : env.submitResp 0 = SubmitResult.failure m0)
    (hdl0 : is_daily_limit_error m0 = true)
    (hs1 : env.submitResp 1 = SubmitResult.failure m1)
    (hdl1 : is_daily_limit_error m1 = true) :
    submit_reimbursement env claim 2 sess =
      ((false, "Failed due to daily limit after " ++ toString (2 : Nat) ++
          " attempts: " ++ m1),
        [Event.fetchTx, Event.claimWrite d,
         Event.fetchTx, Event.claimWrite (d - oneDay)]) := by
  unfold submit_reimbursement
  rw [hparse]
  unfold go
  simp [go, hcookie, htok, hf0, hf1, hnd0, hnd1, hs0, hs1, hdl0, hdl1, hdry]

/-- Witness for C3 at a concrete claim and server behaviour. -/
theorem submit_daily_limit_exhausted_witness :
    submit_reimbursement
      ⟨fun _ => some 0, false, ⟨true, "t"⟩, false, fun _ => FetchResult.ok [],
        fun _ => SubmitResult.failure "maximaal 3 transacties op een dag"⟩
      ⟨"2024-03-10T09:00:00+01:00", "Loc", "12.3", "5.0", "abc123", "img"⟩ 2 ⟨true, "tok"⟩ =
      ((false, "Failed due to daily limit after " ++ toString (2 : Nat) ++
          " attempts: " ++ "maximaal 3 transacties op een dag"),
        [Event.fetchTx, Event.claimWrite 0,
         Event.fetchTx, Event.claimWrite (0 - oneDay)]) :=
  submit_daily_limit_exhausted _ _ 0 _ [] []
    "maximaal 3 transacties op een dag" "maximaal 3 transacties op een dag"
    rfl rfl (by decide) rfl rfl rfl rfl rfl rfl (by decide) rfl (by decide)

/-- Claim C4: in any iteration of the submission loop, a claim rejection
whose error message is not the daily-limit phrase makes the loop return
failure at once: the iteration issues exactly one fetch and one claim
write carrying the unshifted date, and no later iteration runs, however
much fuel remains. -/
theorem submit_other_error_immediate (env : SubmitEnv) (claim : ClaimData)
    (maxAttempts attempt r : Nat) (dt : Int) (sess : SessState)
    (txs : List TransactionRec) (em : String)
    (hcookie : sess.osVisitor = true) (htok : sess.csrf_token ≠ "")
    (hfetch : env.fetch attempt = FetchResult.ok txs)
    (hnd : txs.any (fun t => t.claimNote == some claim.chargeSessionId) = false)
    (hdry : env.dryMode = false)
    (hsub : env.submitResp attempt = SubmitResult.failure em)
    (hdl : is_daily_limit_error em = false) :
    go env claim maxAttempts attempt (r + 1) dt sess =
      ((false, "Failed to submit claim: " ++ em),
        [Event.fetchTx, Event.claimWrite dt]) := by
  unfold go
  simp [hcookie, htok, hfetch, hnd, hdry, hsub, hdl]

/-- Witness for C4: a non-daily-limit rejection on the first of three
allowed attempts. -/
theorem submit_other_error_immediate_witness :
    go
      ⟨fun _ => some 0, false, ⟨true, "t"⟩, false, fun _ => FetchResult.ok [],
        fun _ => SubmitResult.failure "IBAN onbekend"⟩
      ⟨"2024-03-10T09:00:00+01:00", "Loc", "12.3", "5.0", "abc123", "img"⟩
      3 0 3 0 ⟨true, "tok"⟩ =
      ((false, "Failed to submit claim: " ++ "IBAN onbekend"),
        [Event.fetchTx, Event.claimWrite 0]) :=
  submit_other_error_immediate _ _ 3 0 2 0 _ [] "IBAN onbekend"
    rfl (by decide) rfl rfl rfl rfl (by decide)

/-- Counterexample to claim C5 as stated: in dry-run mode a non-duplicate
claim with session id `abc123` yields success and no claim write, but the
returned message is the dry-run message naming location/energy/price and
does NOT contain the session identifier. -/
theorem dry_run_message_lacks_session_id :
    submit_reimbursement
        ⟨fun _ => some 0, false, ⟨true, "t"⟩, true,
          fun _ => FetchResult.ok [], fun _ => SubmitResult.success⟩
        ⟨"2024-03-10T09:00:00+01:00", "Test Location, Netherlands", "12.3", "5.0",
          "abc123", "img"⟩ 3 ⟨true, "tok"⟩ =
      ((true, "[DRY RUN] Would submit claim for Test Location, Netherlands (12.3 kWh, €5.0)"),
        [Event.fetchTx]) ∧
    containsSubstring
      "[DRY RUN] Would submit claim for Test Location, Netherlands (12.3 kWh, €5.0)"
      "abc123" = false := by
  constructor
  · decide
  · decide

/-- Claim C5 as amended: for every non-duplicate claim submitted in
dry-run mode, `submit_reimbursement` returns success with the dry-run
message (which names the claim's location, energy and price, but not its
session identifier) and issues no claim-write request. -/
theorem submit_dry_run (env : SubmitEnv) (claim : ClaimData)
    (maxAttempts : Nat) (d : Int) (sess : SessState) (txs : List TransactionRec)
    (hparse : env.parseISO claim.datetime = some d)
    (hcookie : sess.osVisitor = true) (htok : sess.csrf_token ≠ "")
    (hmax : 0 < maxAttempts)
    (hfetch : env.fetch 0 = FetchResult.ok txs)
    (hnd : txs.any (fun t => t.claimNote == some claim.chargeSessionId) = false)
    (hdry : env.dryMode = true) :
    submit_reimbursement env claim maxAttempts sess =
      ((true, dryRunMsg claim), [Event.fetchTx]) := by
  obtain ⟨r, hr⟩ : ∃ r, maxAttempts = r + 1 := ⟨maxAttempts - 1, by omega⟩
  unfold submit_reimbursement
  rw [hparse, hr]
  unfold go
  simp [hcookie, htok, hfetch, hnd, hdry]

/-- Witness for the amended C5 at a concrete claim. -/
theorem submit_dry_run_witness :
    submit_reimbursement
      ⟨fun _ => some 0, false, ⟨true, "t"⟩, true,
        fun _ => FetchResult.ok [], fun _ => SubmitResult.success⟩
      ⟨"2024-03-10T09:00:00+01:00", "Test Location, Netherlands", "12.3", "5.0",
        "abc123", "img"⟩ 3 ⟨true, "tok"⟩ =
      ((true, dryRunMsg ⟨"2024-03-10T09:00:00+01:00", "Test Location, Netherlands",
          "12.3", "5.0", "abc123", "img"⟩),
        [Event.fetchTx]) :=
  submit_dry_run _ _ _ 0 _ [] rfl rfl (by decide) (by decide) rfl rfl rfl

/-- Counterexample to claim C6 as stated: a session that still holds the
bootstrap anti-forgery token (with the `osVisitor` cookie present), in an
environment where any `login()` would fail, does not trigger a re-login
at all — the call proceeds and here returns success, with no login call
in its trace. -/
theorem bootstrap_token_triggers_no_relogin :
    (submit_reimbursement
        ⟨fun _ => some 0, false, ⟨true, "t"⟩, true,
          fun _ => FetchResult.ok [], fun _ => SubmitResult.success⟩
        ⟨"2024-03-10T09:00:00+01:00", "Loc", "12.3", "5.0", "sid9", "img"⟩
        3 ⟨true, bootstrapCsrfToken⟩).1.1 = true ∧
    Event.loginCall ∉
      (submit_reimbursement
        ⟨fun _ => some 0, false, ⟨true, "t"⟩, true,
          fun _ => FetchResult.ok [], fun _ => SubmitResult.success⟩
        ⟨"2024-03-10T09:00:00+01:00", "Loc", "12.3", "5.0", "sid9", "img"⟩
        3 ⟨true, bootstrapCsrfToken⟩).2 := by
  constructor
  · decide
  · decide

/-- Claim C6 as amended: at the start of every submission attempt, if the
session lacks the `osVisitor` cookie or the anti-forgery token is empty,
the loop re-runs `login()`; when that re-login fails the whole call
returns failure at once, with the login call as its only issued request.
This holds for the loop at any attempt and any remaining fuel, and hence
for `submit_reimbursement` itself. -/
theorem submit_relogin_failure (env : SubmitEnv) (claim : ClaimData)
    (maxAttempts attempt r : Nat) (dt d : Int) (sess : SessState)
    (hinvalid : sess.osVisitor = false ∨ sess.csrf_token = "")
    (hlogin : env.loginOk = false) :
    go env claim maxAttempts attempt (r + 1) dt sess =
      ((false, "Authentication required and re-login failed"), [Event.loginCall]) ∧
    (env.parseISO claim.datetime = some d → 0 < maxAttempts →
      submit_reimbursement env claim maxAttempts sess =
        ((false, "Authentication required and re-login failed"), [Event.loginCall])) := by
  have key : ∀ mA a f dt1, go env claim mA a (f + 1) dt1 sess =
      ((false, "Authentication required and re-login failed"), [Event.loginCall]) := by
    intro mA a f dt1
    unfold go
    rcases hinvalid with h | h <;> simp [h, hlogin]
  refine ⟨key maxAttempts attempt r dt, fun hparse hmax => ?_⟩
  obtain ⟨f, hf⟩ : ∃ f, maxAttempts = f + 1 := ⟨maxAttempts - 1, by omega⟩
  unfold submit_reimbursement
  rw [hparse, hf]
  exact key (f + 1) 0 f d

/-- Witness for the amended C6: empty token, failing login. -/
theorem submit_relogin_failure_witness :
    go
      ⟨fun _ => some 0, false, ⟨true, "t"⟩, false,
        fun _ => FetchResult.ok [], fun _ => SubmitResult.success⟩
      ⟨"2024-03-10T09:00:00+01:00", "Loc", "12.3", "5.0", "abc123", "img"⟩
      3 0 3 0 ⟨true, ""⟩ =
      ((false, "Authentication required and re-login failed"), [Event.loginCall]) ∧
    submit_reimbursement
      ⟨fun _ => some 0, false, ⟨true, "t"⟩, false,
        fun _ => FetchResult.ok [], fun _ => SubmitResult.success⟩
      ⟨"2024-03-10T09:00:00+01:00", "Loc", "12.3", "5.0", "abc123", "img"⟩
      3 ⟨true, ""⟩ =
      ((false, "Authentication required and re-login failed"), [Event.loginCall]) := by
  have h := submit_relogin_failure
    ⟨fun _ => some 0, false, ⟨true, "t"⟩, false,
      fun _ => FetchResult.ok [], fun _ => SubmitResult.success⟩
    ⟨"2024-03-10T09:00:00+01:00", "Loc", "12.3", "5.0", "abc123", "img"⟩
    3 0 2 0 0 ⟨true, ""⟩ (Or.inr rfl) rfl
  exact ⟨h.1, h.2 rfl (by decide)⟩

/-- Claim C7: for any endpoint of the pattern table, when the endpoint is
not yet cached and the fetched script body does not match its pattern,
`_get_api_version` fails with the pattern-mismatch error (the spec's
`ProtocolMismatchError`) and the version cache is left unchanged. -/
theorem api_version_pattern_mismatch (env : VersionEnv)
    (cache : List (String × String)) (endpoint lit jsFile body : String)
    (hnc : cache.lookup endpoint = none)
    (hpat : API_PATTERNS.lookup endpoint = some (lit, jsFile))
    (hbody : env.fetchBody jsFile = some body)
    (hmatch : searchVersion lit body.toList = none) :
    get_api_version env cache endpoint =
      (Except.error (ApiVersionError.patternMismatch endpoint), cache, [jsFile]) := by
  unfold get_api_version
  simp only [hnc, hpat, hbody, hmatch]

/-- Witness for C7: the login endpoint against a body with no version
marker, starting from an empty cache. -/
theorem api_version_pattern_mismatch_witness :
    get_api_version ⟨fun _ => some "no marker here"⟩ [] "login" =
      (Except.error (ApiVersionError.patternMismatch "login"), [],
        ["OtmAcc_Account.controller.js"]) :=
  api_version_pattern_mismatch _ []
    "login" "AppLogin\", \"screenservices/OtmAcc_Account/ActionAppLogin\", \""
    "OtmAcc_Account.controller.js" "no marker here" rfl rfl rfl (by decide)

/-- Claim C8: once `_get_api_version` has answered successfully for an
endpoint, the resulting cache makes every later call for that endpoint —
under any server behaviour — return the same version with no script
fetch, so a version is resolved at most once per process lifetime. -/
theorem api_version_cached_once (env env2 : VersionEnv)
    (cache cache2 : List (String × String)) (endpoint v : String)
    (files : List String)
    (h1 : get_api_version env cache endpoint = (Except.ok v, cache2, files)) :
    get_api_version env2 cache2 endpoint = (Except.ok v, cache2, []) := by
  have hl2 : cache2.lookup endpoint = some v := by
    unfold get_api_version at h1
    cases hl : cache.lookup endpoint with
    | some w =>
        simp only [hl, Prod.mk.injEq, Except.ok.injEq] at h1
        obtain ⟨h1a, h1b, h1c⟩ := h1
        subst h1a
        rw [← h1b]
        exact hl
    | none =>
        simp only [hl] at h1
        cases hp : API_PATTERNS.lookup endpoint with
        | none => simp only [hp] at h1; simp at h1
        | some p =>
            obtain ⟨lit, jsFile⟩ := p
            simp only [hp] at h1
            cases hb : env.fetchBody jsFile with
            | none => simp only [hb] at h1; simp at h1
            | some body =>
                simp only [hb] at h1
                cases hm : searchVersion lit body.toList with
                | none => simp only [hm] at h1; simp at h1
                | some w =>
                    simp only [hm, Prod.mk.injEq, Except.ok.injEq] at h1
                    obtain ⟨h1a, h1b, h1c⟩ := h1
                    subst h1a
                    rw [← h1b]
                    simp [List.lookup]
  unfold get_api_version
  simp only [hl2]

/-- Witness for C8: resolve the login version once against a matching
body, then observe the second call answers from the cache with no fetch
even though the second environment would serve nothing. -/
theorem api_version_cached_once_witness :
    get_api_version ⟨fun _ => none⟩ [("login", "v123")] "login" =
      (Except.ok "v123", [("login", "v123")], []) :=
  api_version_cached_once
    ⟨fun _ => some "xAppLogin\", \"screenservices/OtmAcc_Account/ActionAppLogin\", \"v123\"y"⟩
    ⟨fun _ => none⟩ [] [("login", "v123")] "login" "v123"
    ["OtmAcc_Account.controller.js"] rfl

/-- Counterexample to claim C9 as stated: nothing in `login` guarantees
the extracted token differs from the bootstrap constant.  When the
post-login `nr2Users` cookie happens to carry the URL-encoded bootstrap
token, login succeeds and the installed anti-forgery token equals the
bootstrap constant. -/
theorem login_token_can_equal_bootstrap :
    login ⟨true, false, true, some "crf%3dT6C%2b9iB49TLra4jEsMeSckDMNhQ%3d"⟩
        ⟨bootstrapCsrfToken, none⟩ =
      (true, ⟨bootstrapCsrfToken, some bootstrapCsrfToken⟩) := by
  decide

/-- Claim C9 as amended: a login whose server reports an unsuccessful
result fails and leaves the state — in particular a bootstrap
`csrf_token` — unchanged; a successful login stores the URL-decoded
capture of the fixed `crf%3d` sub-pattern as the new token and installs
it as the default header (that value differs from the bootstrap constant
only when the cookie carries a different token); and login fails, again
leaving the state unchanged, when the `nr2Users` cookie is absent or the
sub-pattern does not match it. -/
theorem login_token_rotation (env : LoginEnv) (st : LoginState) :
    (env.hasException = true ∨ env.resultTrue = false → login env st = (false, st)) ∧
    (∀ cookie enc, env.initialCallsOk = true → env.hasException = false →
      env.resultTrue = true → env.nr2Users = some cookie →
      extractCrfCapture cookie = some enc →
      login env st = (true, ⟨url_unquote enc, some (url_unquote enc)⟩)) ∧
    (env.initialCallsOk = true → env.hasException = false → env.resultTrue = true →
      env.nr2Users = none → login env st = (false, st)) ∧
    (∀ cookie, env.initialCallsOk = true → env.hasException = false →
      env.resultTrue = true → env.nr2Users = some cookie →
      extractCrfCapture cookie = none → login env st = (false, st)) := by
  refine ⟨fun h => ?_, fun cookie enc h1 h2 h3 h4 h5 => ?_,
    fun h1 h2 h3 h4 => ?_, fun cookie h1 h2 h3 h4 h5 => ?_⟩
  · unfold login
    rcases h with h | h
    · cases hc : env.initialCallsOk <;> simp [h, hc]
    · cases hc : env.initialCallsOk <;> simp [h, hc]
  · unfold login
    simp [h1, h2, h3, h4, h5]
  · unfold login
    simp [h1, h2, h3, h4]
  · unfold login
    simp [h1, h2, h3, h4, h5]

/-- Witness for the amended C9: a rejected login leaves the bootstrap
token in place; a successful login installs the decoded rotated token. -/
theorem login_token_rotation_witness :
    login ⟨true, false, false, some "crf%3dXYZ"⟩ ⟨bootstrapCsrfToken, none⟩ =
      (false, ⟨bootstrapCsrfToken, none⟩) ∧
    login ⟨true, false, true, some "crf%3dQOjSV0ck2K5My3x%2f%2byrSZeNUfNA%3d%3bid"⟩
        ⟨bootstrapCsrfToken, none⟩ =
      (true, ⟨url_unquote "QOjSV0ck2K5My3x%2f%2byrSZeNUfNA%3d",
        some (url_unquote "QOjSV0ck2K5My3x%2f%2byrSZeNUfNA%3d")⟩) ∧
    login ⟨true, false, true, none⟩ ⟨bootstrapCsrfToken, none⟩ =
      (false, ⟨bootstrapCsrfToken, none⟩) ∧
    login ⟨true, false, true, some "no-token-cookie"⟩ ⟨bootstrapCsrfToken, none⟩ =
      (false, ⟨bootstrapCsrfToken, none⟩) :=
  ⟨(login_token_rotation ⟨true, false, false, some "crf%3dXYZ"⟩
      ⟨bootstrapCsrfToken, none⟩).1 (Or.inr rfl),
   (login_token_rotation ⟨true, false, true,
        some "crf%3dQOjSV0ck2K5My3x%2f%2byrSZeNUfNA%3d%3bid"⟩
      ⟨bootstrapCsrfToken, none⟩).2.1 _ _ rfl rfl rfl rfl rfl,
   (login_token_rotation ⟨true, false, true, none⟩
      ⟨bootstrapCsrfToken, none⟩).2.2.1 rfl rfl rfl rfl,
   (login_token_rotation ⟨true, false, true, some "no-token-cookie"⟩
      ⟨bootstrapCsrfToken, none⟩).2.2.2 _ rfl rfl rfl rfl rfl⟩
